import Mathlib

/-!
Shallow embedding of the ruma homeserver core (stensonowen/ruma) used to check
the natural-language specification against the code.

Source files embedded directly:
  * `src/api/r0/room_creation.rs` — the `/createRoom` handler
    (`CreateRoomRequest::validate`, `CreateRoom::handle`);
  * `src/api/r0/logout.rs` — the `/logout` handler;
  * `src/config.rs` — `Config::from_file` (post-parse validation part);
  * `src/schema.rs` — the database tables (record shapes).

Parts of the repository referenced by the handlers but not present under
`src/` (`access_token.rs`, `room.rs`, `room_membership.rs`, `error.rs`) are
modelled from the spec; each such definition carries a doc comment starting
with `Modelled from the spec:`.
-/

/-- Modelled from the spec: the error taxonomy of §7 (`error.rs` is not under
`src/`). `bad_json` is `ApiError::bad_json(None)`, `unauthenticated` is the
`Unauthenticated` class, `alias_taken` is the alias-conflict error of §4.3
step 5, `storage_error` the catch-all storage class. -/
inductive ApiError where
  | bad_json : ApiError
  | unauthenticated : ApiError
  | alias_taken : ApiError
  | storage_error : ApiError
deriving DecidableEq, Repr

/-- Modelled from the spec: the Matrix error code carried by each error class
(`errcode` field of the serialized error; the `with_invalid_visibility` test
expects `"M_BAD_JSON"` for `ApiError::bad_json`). -/
def ApiError.errcode : ApiError → String
  | .bad_json => "M_BAD_JSON"
  | .unauthenticated => "M_FORBIDDEN"
  | .alias_taken => "M_ROOM_IN_USE"
  | .storage_error => "M_UNKNOWN"

/-- The `access_tokens` table row from `src/schema.rs` (timestamps omitted:
wall-clock time is outside the embedding). -/
structure AccessToken where
  id : Nat
  user_id : String
  value : String
  revoked : Bool
deriving DecidableEq, Repr

/-- A token store is the list of `access_tokens` rows, most recent first. -/
abbrev TokenStore : Type := List AccessToken

/-- Look up the stored token row for a presented token value. -/
def findToken (s : TokenStore) (value : String) : Option AccessToken :=
  List.find? (fun t => t.value == value) s

/-- Modelled from the spec: `Issue(user_id)` of §4.1 (`access_token.rs` is not
under `src/`). Persists a fresh `AccessToken` row with `revoked = false` bound
to the user; the externally returned token value is the row's lookup key. -/
def Issue (s : TokenStore) (user_id value : String) : TokenStore :=
  ({ id := List.length s, user_id := user_id, value := value,
     revoked := false } : AccessToken) :: s

/-- Modelled from the spec: `Verify(token_value)` of §4.1 (`access_token.rs`
is not under `src/`). Fails with `Unauthenticated` if no row exists for the
value or the row is revoked; on success returns the bound user id. -/
def Verify (s : TokenStore) (value : String) : Except ApiError String :=
  match findToken s value with
  | none => Except.error ApiError.unauthenticated
  | some t =>
      if t.revoked then Except.error ApiError.unauthenticated
      else Except.ok t.user_id

/-- Modelled from the spec: `Revoke(token)` / `AccessToken::revoke` of §4.1
(`access_token.rs` is not under `src/`). Sets `revoked = true` on the token's
row; a no-op success on a row that is already revoked. -/
def Revoke (s : TokenStore) (value : String) : TokenStore :=
  List.map
    (fun t => if t.value == value then { t with revoked := true } else t) s

/-- A credential-engine operation, for stating the temporal claim of §8. -/
inductive TokenOp where
  | issue (user_id value : String)
  | revoke (value : String)
deriving DecidableEq, Repr

/-- One step of the credential engine. -/
def stepToken (s : TokenStore) : TokenOp → TokenStore
  | .issue u v => Issue s u v
  | .revoke v => Revoke s v

/-- Run a sequence of credential-engine operations. -/
def runOps (s : TokenStore) (ops : List TokenOp) : TokenStore :=
  List.foldl stepToken s ops

/-- An HTTP status, as used by the handlers (`iron::status::Status`). -/
inductive Status where
  | ok
  | forbidden
deriving DecidableEq, Repr

/-- An HTTP response: a status and a body. `Response::with(Status::Ok)`
carries an empty body. -/
structure Response where
  status : Status
  body : String
deriving DecidableEq, Repr

/-- The `/logout` endpoint from `src/api/r0/logout.rs`: the `AccessTokenAuth`
middleware (modelled from the spec §4.5: resolves the bearer token through
`Verify` and short-circuits with an authorization failure — `Forbidden`, per
the `logout_revokes_access_token` test — when resolution fails), followed by
`Logout::handle`, which revokes the resolved token and returns
`Response::with(Status::Ok)` (empty body). -/
def Logout.handle (s : TokenStore) (token_value : String) :
    TokenStore × Response :=
  match Verify s token_value with
  | Except.error _ => (s, { status := Status.forbidden, body := "" })
  | Except.ok _ => (Revoke s token_value, { status := Status.ok, body := "" })

/-- The `rooms` table row from `src/schema.rs` (timestamp omitted). -/
structure Room where
  id : String
  user_id : String
  public : Bool
deriving DecidableEq, Repr

/-- Structure `NewRoom` as constructed by `CreateRoom::handle`
(`src/api/r0/room_creation.rs`, lines 77–81). -/
structure NewRoom where
  id : String
  user_id : String
  public : Bool
deriving DecidableEq, Repr

/-- The `events` table row from `src/schema.rs`, restricted to the fields the
claims need; for an `m.room.create` event, `federate` is the `m.federate`
flag embedded in its content. -/
structure Event where
  id : String
  room_id : String
  user_id : String
  event_type : String
  federate : Bool
deriving DecidableEq, Repr

/-- The `room_aliases` table row from `src/schema.rs` (`alias` column renamed
to `name`; timestamps and `servers` omitted). -/
structure RoomAlias where
  name : String
  room_id : String
  user_id : String
deriving DecidableEq, Repr

/-- The `room_memberships` table row from `src/schema.rs` (timestamp
omitted). -/
structure RoomMembership where
  event_id : String
  room_id : String
  user_id : String
  sender : String
  membership : String
deriving DecidableEq, Repr

/-- The database state visible to room creation: the four tables it writes,
each most-recent-row first. -/
structure DBState where
  rooms : List Room
  events : List Event
  room_aliases : List RoomAlias
  room_memberships : List RoomMembership
deriving DecidableEq, Repr

/-- Enum `RoomPreset` from `room.rs` as used in `CreateRoom::handle`
(lines 88–94) and spec §4.3 step 3. -/
inductive RoomPreset where
  | PublicChat
  | PrivateChat
  | TrustedPrivateChat
deriving DecidableEq, Repr

/-- Structure `CreationContent` from `src/api/r0/room_creation.rs` (lines 34–38):
the `m.federate` field of `creation_content`. -/
structure CreationContent where
  federate : Option Bool
deriving DecidableEq, Repr

/-- Structure `CreateRoomRequest` from `src/api/r0/room_creation.rs` (lines 23–32). -/
structure CreateRoomRequest where
  creation_content : Option CreationContent
  invite : Option (List String)
  name : Option String
  preset : Option RoomPreset
  room_alias_name : Option String
  topic : Option String
  visibility : Option String
deriving DecidableEq, Repr

/-- Structure `CreationOptions` as constructed by `CreateRoom::handle`
(lines 96–103). -/
structure CreationOptions where
  room_alias : Option String
  federate : Bool
  invite_list : Option (List String)
  name : Option String
  preset : RoomPreset
  topic : Option String
deriving DecidableEq, Repr

/-- Structure `CreateRoomResponse` from `src/api/r0/room_creation.rs` (lines 40–43). -/
structure CreateRoomResponse where
  room_id : String
deriving DecidableEq, Repr

/-- Validation `CreateRoomRequest::validate` from `src/api/r0/room_creation.rs`
(lines 47–59): if `visibility` is present and is neither `"public"` nor
`"private"`, fail with `ApiError::bad_json`. -/
def CreateRoomRequest.validate (r : CreateRoomRequest) :
    Except ApiError CreateRoomRequest :=
  match r.visibility with
  | some visibility =>
      if visibility ≠ "public" ∧ visibility ≠ "private" then
        Except.error ApiError.bad_json
      else
        Except.ok r
  | none => Except.ok r

/-- Modelled from the spec: the storage `transaction(fn) -> Result` wrapper of
§6 (`db.rs` is not under `src/`): commits the body's writes on success, rolls
the state back to the initial state on any error returned from the body. -/
def transaction (f : DBState → DBState × Except ApiError α) (s : DBState) :
    DBState × Except ApiError α :=
  match f s with
  | (s', Except.ok a) => (s', Except.ok a)
  | (_, Except.error e) => (s, Except.error e)

/-- Modelled from the spec: `Room::create` (§4.3 steps 2, 3 and 5; `room.rs`
is not under `src/`). Inserts the `Room` row, inserts the room's creation
event embedding the federation-allowed flag, and, if an alias was requested,
reserves it exclusively for this room, failing with `AliasTaken` when the
alias is already reserved. Preset-driven initial state events beyond the
creation event are not tracked by the embedded state. Run inside
`transaction`, which rolls its writes back on error. -/
def Room.create (s : DBState) (new_room : NewRoom) (domain : String)
    (options : CreationOptions) : DBState × Except ApiError Room :=
  let room : Room :=
    { id := new_room.id, user_id := new_room.user_id,
      public := new_room.public }
  let creation_event : Event :=
    { id := "$create:" ++ domain ++ ":" ++ room.id, room_id := room.id,
      user_id := room.user_id, event_type := "m.room.create",
      federate := options.federate }
  let s₁ : DBState :=
    { s with rooms := room :: s.rooms, events := creation_event :: s.events }
  match options.room_alias with
  | none => (s₁, Except.ok room)
  | some a =>
      if List.any s.room_aliases (fun ra => ra.name == a) then
        (s₁, Except.error ApiError.alias_taken)
      else
        ({ s₁ with room_aliases :=
            ({ name := a, room_id := room.id,
               user_id := room.user_id } : RoomAlias) :: s.room_aliases },
         Except.ok room)

/-- Structure `RoomMembershipOptions` as constructed by `CreateRoom::handle`
(lines 108–113). -/
structure RoomMembershipOptions where
  room_id : String
  user_id : String
  sender : String
  membership : String
deriving DecidableEq, Repr

/-- Modelled from the spec: `RoomMembership::create` (§4.4 RecordMembership;
`room_membership.rs` is not under `src/`). Appends a new `MembershipEvent`
row with the given room, subject, sender and membership state; prior events
are never mutated. -/
def RoomMembership.create (s : DBState) (domain : String)
    (options : RoomMembershipOptions) : DBState × Except ApiError RoomMembership :=
  let m : RoomMembership :=
    { event_id := "$member:" ++ domain ++ ":" ++ options.room_id,
      room_id := options.room_id, user_id := options.user_id,
      sender := options.sender, membership := options.membership }
  ({ s with room_memberships := m :: s.room_memberships }, Except.ok m)

/-- The `users` table row from `src/schema.rs`, restricted to the field the
handler reads. -/
structure User where
  id : String
deriving DecidableEq, Repr

/-- The `new_room` binding of `CreateRoom::handle`
(`src/api/r0/room_creation.rs`, lines 77–81): the room is public exactly when
`visibility` maps to `true` under `|v| v == "public"`, defaulting to `false`
when `visibility` is absent. -/
def CreateRoom.new_room (user : User) (room_id : String)
    (create_room_request : CreateRoomRequest) : NewRoom :=
  { id := room_id, user_id := user.id,
    public :=
      match create_room_request.visibility with
      | some v => v == "public"
      | none => false }

/-- The `federate` binding of `CreateRoom::handle` (lines 83–86):
`creation_content.m.federate`, defaulting to `true` when `creation_content`
or its `m.federate` field is absent. -/
def CreateRoom.federate (create_room_request : CreateRoomRequest) : Bool :=
  match create_room_request.creation_content with
  | some creation_content => Option.getD creation_content.federate true
  | none => true

/-- The `preset` binding of `CreateRoom::handle` (lines 88–94). -/
def CreateRoom.preset (create_room_request : CreateRoomRequest)
    (new_room : NewRoom) : RoomPreset :=
  match create_room_request.preset with
  | some preset => preset
  | none =>
      match new_room.public with
      | true => RoomPreset.PublicChat
      | false => RoomPreset.PrivateChat

/-- The `creation_options` binding of `CreateRoom::handle` (lines 96–103). -/
def CreateRoom.creation_options (create_room_request : CreateRoomRequest)
    (new_room : NewRoom) : CreationOptions :=
  { room_alias := create_room_request.room_alias_name,
    federate := CreateRoom.federate create_room_request,
    invite_list := create_room_request.invite,
    name := create_room_request.name,
    preset := CreateRoom.preset create_room_request new_room,
    topic := create_room_request.topic }

/-- The transaction body of `CreateRoom::handle` (lines 105–119): create the
room (`Room::create`), then record the founding membership — a `"join"`
`RoomMembership` whose subject and sender are both the room's creator — and
return the room; any error propagates out of the closure. -/
def CreateRoom.txn_body (new_room : NewRoom) (domain : String)
    (creation_options : CreationOptions) (s₀ : DBState) :
    DBState × Except ApiError Room :=
  match Room.create s₀ new_room domain creation_options with
  | (s₁, Except.error e) => (s₁, Except.error e)
  | (s₁, Except.ok room) =>
      match RoomMembership.create s₁ domain
        { room_id := room.id, user_id := room.user_id,
          sender := room.user_id, membership := "join" } with
      | (s₂, Except.error e) => (s₂, Except.error e)
      | (s₂, Except.ok _) => (s₂, Except.ok room)

/-- Handler `CreateRoom::handle` from `src/api/r0/room_creation.rs` (lines 61–127).
`user` is the authenticated user attached by `AccessTokenAuth`; `body` is the
parsed request body (`none` covers both `Ok(None)` and `Err(_)` from the body
parser); `room_id` is the fresh id allocated by `RoomId::new(&config.domain)`;
`domain` is `config.domain`. Validation runs first; only then does the
handler touch storage, wrapping all writes in `transaction`. Returns the
database state after the request and the handler's result. -/
def CreateRoom.handle (user : User) (body : Option CreateRoomRequest)
    (room_id : String) (domain : String) (s : DBState) :
    DBState × Except ApiError CreateRoomResponse :=
  match body with
  | none => (s, Except.error ApiError.bad_json)
  | some req =>
      match CreateRoomRequest.validate req with
      | Except.error e => (s, Except.error e)
      | Except.ok create_room_request =>
          match transaction
            (CreateRoom.txn_body
              (CreateRoom.new_room user room_id create_room_request) domain
              (CreateRoom.creation_options create_room_request
                (CreateRoom.new_room user room_id create_room_request))) s with
          | (s', Except.error e) => (s', Except.error e)
          | (s', Except.ok room) =>
              (s', Except.ok ({ room_id := room.id } : CreateRoomResponse))

/-- Error type `CliError` from `error.rs` (not under `src/`), modelled from the spec and
its use in `src/config.rs`: `CliError::new(message)` carries a message. -/
structure CliError where
  message : String
deriving DecidableEq, Repr

/-- Structure `RawConfig` from `src/config.rs` (lines 21–28). -/
structure RawConfig where
  bind_address : Option String
  bind_port : Option String
  domain : String
  macaroon_secret_key : String
  postgres_url : String
deriving DecidableEq, Repr

/-- Structure `Config` from `src/config.rs` (lines 31–47); `macaroon_secret_key` holds
the decoded bytes (each a value below 256). -/
structure Config where
  bind_address : String
  bind_port : String
  domain : String
  macaroon_secret_key : List Nat
  postgres_url : String
deriving DecidableEq, Repr

/-- Function `Config::from_file` from `src/config.rs` (lines 93–136), starting from the
parsed `RawConfig` (file discovery and JSON/TOML/YAML parsing are external
collaborators per spec §1). `decode` is the external `base64::decode` of the
`base64` crate, passed as a parameter: it returns the decoded bytes or a
decode error. Mirrors the source: Base64-decode `macaroon_secret_key`,
rejecting a decode failure or any length other than 32; default
`bind_address` to `"127.0.0.1"` and `bind_port` to `"3000"` when absent. -/
def Config.from_file (decode : String → Except String (List Nat))
    (config : RawConfig) : Except CliError Config :=
  match decode config.macaroon_secret_key with
  | Except.ok bytes =>
      if bytes.length = 32 then
        Except.ok
          { bind_address :=
              match config.bind_address with
              | some a => a
              | none => "127.0.0.1",
            bind_port :=
              match config.bind_port with
              | some p => p
              | none => "3000",
            domain := config.domain, macaroon_secret_key := bytes,
            postgres_url := config.postgres_url }
      else Except.error { message := "macaroon_secret_key must be 32 bytes." }
  | Except.error _ =>
      Except.error { message := "macaroon_secret_key must be valid Base64." }

/-! ## Helper lemmas -/

theorem findToken_issue_self (s : TokenStore) (u v : String) :
    findToken (Issue s u v) v =
      some { id := List.length s, user_id := u, value := v, revoked := false } := by
  simp [findToken, Issue]

theorem findToken_issue_ne (s : TokenStore) (u v v' : String) (h : v' ≠ v) :
    findToken (Issue s u v') v = findToken s v := by
  simp [findToken, Issue, List.find?_cons_of_neg, h]

theorem findToken_revoke (s : TokenStore) (v v' : String) :
    findToken (Revoke s v') v =
      Option.map
        (fun t => if t.value == v' then { t with revoked := true } else t)
        (findToken s v) := by
  unfold findToken Revoke
  rw [List.find?_map]
  have hcomp :
      ((fun t : AccessToken => t.value == v) ∘
        (fun t => if t.value == v' then { t with revoked := true } else t)) =
      (fun t : AccessToken => t.value == v) := by
    funext t
    by_cases h : (t.value == v') = true <;> simp [Function.comp, h]
  rw [hcomp]

theorem findToken_value {s : TokenStore} {v : String} {t : AccessToken}
    (h : findToken s v = some t) : t.value = v := by
  have := List.find?_some h
  simpa using this

theorem findToken_runOps_untouched {s : TokenStore} {v : String}
    {t : AccessToken} {ops : List TokenOp} (h : findToken s v = some t)
    (hops : ∀ op ∈ ops,
      (∀ u', op ≠ TokenOp.issue u' v) ∧ op ≠ TokenOp.revoke v) :
    findToken (runOps s ops) v = some t := by
  induction ops generalizing s with
  | nil => exact h
  | cons op ops ih =>
      have hstep : findToken (stepToken s op) v = some t := by
        cases op with
        | issue u' v' =>
            have hne : v' ≠ v := by
              intro hvv
              exact (hops _ (List.mem_cons_self _ _)).1 u' (by rw [hvv])
            rw [stepToken, findToken_issue_ne _ _ _ _ hne]
            exact h
        | revoke v' =>
            have hne : v' ≠ v := by
              intro hvv
              exact (hops _ (List.mem_cons_self _ _)).2 (by rw [hvv])
            have hb : (t.value == v') = false := by
              rw [findToken_value h]
              simp [Ne.symm hne]
            rw [stepToken, findToken_revoke, h, Option.map_some']
            simp only [hb, Bool.false_eq_true, if_false]
      exact ih hstep (fun op hop => hops op (List.mem_cons_of_mem _ hop))

theorem findToken_runOps_revoked {s : TokenStore} {v : String}
    {t : AccessToken} {ops : List TokenOp} (h : findToken s v = some t)
    (hrev : t.revoked = true)
    (hops : ∀ op ∈ ops, ∀ u', op ≠ TokenOp.issue u' v) :
    ∃ t', findToken (runOps s ops) v = some t' ∧ t'.revoked = true := by
  induction ops generalizing s t with
  | nil => exact ⟨t, h, hrev⟩
  | cons op ops ih =>
      have hstep : ∃ t'', findToken (stepToken s op) v = some t'' ∧
          t''.revoked = true := by
        cases op with
        | issue u' v' =>
            have hne : v' ≠ v := by
              intro hvv
              exact hops _ (List.mem_cons_self _ _) u' (by rw [hvv])
            rw [stepToken, findToken_issue_ne _ _ _ _ hne]
            exact ⟨t, h, hrev⟩
        | revoke v' =>
            rw [stepToken, findToken_revoke, h, Option.map_some']
            by_cases hv' : (t.value == v') = true
            · exact ⟨{ t with revoked := true },
                by simp only [hv', if_true], rfl⟩
            · exact ⟨t,
                by simp only [Bool.not_eq_true] at hv'
                   simp only [hv', Bool.false_eq_true, if_false],
                hrev⟩
      obtain ⟨t'', h'', hrev''⟩ := hstep
      exact ih h'' hrev'' (fun op hop => hops op (List.mem_cons_of_mem _ hop))

theorem validate_ok_eq {req req' : CreateRoomRequest}
    (h : CreateRoomRequest.validate req = Except.ok req') : req' = req := by
  unfold CreateRoomRequest.validate at h
  cases hv : req.visibility with
  | none =>
      rw [hv] at h
      injection h with h'
      exact h'.symm
  | some v =>
      rw [hv] at h
      have h' : (if v ≠ "public" ∧ v ≠ "private" then
          (Except.error ApiError.bad_json : Except ApiError CreateRoomRequest)
          else Except.ok req) = Except.ok req' := h
      by_cases hc : v ≠ "public" ∧ v ≠ "private"
      · rw [if_pos hc] at h'
        exact absurd h' (by simp)
      · rw [if_neg hc] at h'
        injection h' with h''
        exact h''.symm

theorem transaction_rollback {α : Type} (f : DBState → DBState × Except ApiError α)
    (s : DBState) (e : ApiError) (h : (transaction f s).2 = Except.error e) :
    (transaction f s).1 = s := by
  unfold transaction at h ⊢
  rcases hf : f s with ⟨s', r⟩
  rw [hf] at h
  cases r with
  | ok a => exact Except.noConfusion h
  | error e' => rfl

theorem txn_body_no_alias (new_room : NewRoom) (domain : String)
    (opts : CreationOptions) (s : DBState) (h : opts.room_alias = none) :
    CreateRoom.txn_body new_room domain opts s =
      ({ rooms :=
           (⟨new_room.id, new_room.user_id, new_room.public⟩ : Room) :: s.rooms,
         events :=
           (⟨"$create:" ++ domain ++ ":" ++ new_room.id, new_room.id,
             new_room.user_id, "m.room.create", opts.federate⟩ : Event)
             :: s.events,
         room_aliases := s.room_aliases,
         room_memberships :=
           (⟨"$member:" ++ domain ++ ":" ++ new_room.id, new_room.id,
             new_room.user_id, new_room.user_id, "join"⟩ : RoomMembership)
             :: s.room_memberships },
       Except.ok (⟨new_room.id, new_room.user_id, new_room.public⟩ : Room)) := by
  unfold CreateRoom.txn_body Room.create RoomMembership.create
  rw [h]

theorem txn_body_alias_free (new_room : NewRoom) (domain : String)
    (opts : CreationOptions) (s : DBState) (a : String)
    (h : opts.room_alias = some a)
    (hfree : List.any s.room_aliases (fun ra => ra.name == a) = false) :
    CreateRoom.txn_body new_room domain opts s =
      ({ rooms :=
           (⟨new_room.id, new_room.user_id, new_room.public⟩ : Room) :: s.rooms,
         events :=
           (⟨"$create:" ++ domain ++ ":" ++ new_room.id, new_room.id,
             new_room.user_id, "m.room.create", opts.federate⟩ : Event)
             :: s.events,
         room_aliases :=
           (⟨a, new_room.id, new_room.user_id⟩ : RoomAlias) :: s.room_aliases,
         room_memberships :=
           (⟨"$member:" ++ domain ++ ":" ++ new_room.id, new_room.id,
             new_room.user_id, new_room.user_id, "join"⟩ : RoomMembership)
             :: s.room_memberships },
       Except.ok (⟨new_room.id, new_room.user_id, new_room.public⟩ : Room)) := by
  simp only [CreateRoom.txn_body, Room.create, RoomMembership.create, h, hfree,
    Bool.false_eq_true, if_false]

theorem txn_body_alias_taken (new_room : NewRoom) (domain : String)
    (opts : CreationOptions) (s : DBState) (a : String)
    (h : opts.room_alias = some a)
    (htaken : List.any s.room_aliases (fun ra => ra.name == a) = true) :
    (CreateRoom.txn_body new_room domain opts s).2 =
      Except.error ApiError.alias_taken := by
  simp only [CreateRoom.txn_body, Room.create, h, htaken, if_true]

theorem handle_eq_no_alias (user : User) (req : CreateRoomRequest)
    (room_id domain : String) (s : DBState)
    (hval : CreateRoomRequest.validate req = Except.ok req)
    (halias : req.room_alias_name = none) :
    CreateRoom.handle user (some req) room_id domain s =
      ({ rooms :=
           (⟨room_id, user.id,
             (CreateRoom.new_room user room_id req).public⟩ : Room) :: s.rooms,
         events :=
           (⟨"$create:" ++ domain ++ ":" ++ room_id, room_id, user.id,
             "m.room.create", CreateRoom.federate req⟩ : Event) :: s.events,
         room_aliases := s.room_aliases,
         room_memberships :=
           (⟨"$member:" ++ domain ++ ":" ++ room_id, room_id, user.id,
             user.id, "join"⟩ : RoomMembership) :: s.room_memberships },
       Except.ok ({ room_id := room_id } : CreateRoomResponse)) := by
  have htx := txn_body_no_alias (CreateRoom.new_room user room_id req) domain
    (CreateRoom.creation_options req (CreateRoom.new_room user room_id req)) s
    halias
  simp only [CreateRoom.handle, hval, transaction]
  rw [htx]
  simp only [CreateRoom.new_room, CreateRoom.creation_options]

theorem handle_eq_alias_free (user : User) (req : CreateRoomRequest)
    (room_id domain : String) (s : DBState) (a : String)
    (hval : CreateRoomRequest.validate req = Except.ok req)
    (halias : req.room_alias_name = some a)
    (hfree : List.any s.room_aliases (fun ra => ra.name == a) = false) :
    CreateRoom.handle user (some req) room_id domain s =
      ({ rooms :=
           (⟨room_id, user.id,
             (CreateRoom.new_room user room_id req).public⟩ : Room) :: s.rooms,
         events :=
           (⟨"$create:" ++ domain ++ ":" ++ room_id, room_id, user.id,
             "m.room.create", CreateRoom.federate req⟩ : Event) :: s.events,
         room_aliases := (⟨a, room_id, user.id⟩ : RoomAlias) :: s.room_aliases,
         room_memberships :=
           (⟨"$member:" ++ domain ++ ":" ++ room_id, room_id, user.id,
             user.id, "join"⟩ : RoomMembership) :: s.room_memberships },
       Except.ok ({ room_id := room_id } : CreateRoomResponse)) := by
  have htx := txn_body_alias_free (CreateRoom.new_room user room_id req) domain
    (CreateRoom.creation_options req (CreateRoom.new_room user room_id req)) s a
    halias hfree
  simp only [CreateRoom.handle, hval, transaction]
  rw [htx]
  simp only [CreateRoom.new_room, CreateRoom.creation_options]

theorem handle_eq_alias_taken (user : User) (req : CreateRoomRequest)
    (room_id domain : String) (s : DBState) (a : String)
    (hval : CreateRoomRequest.validate req = Except.ok req)
    (halias : req.room_alias_name = some a)
    (htaken : List.any s.room_aliases (fun ra => ra.name == a) = true) :
    CreateRoom.handle user (some req) room_id domain s =
      (s, Except.error ApiError.alias_taken) := by
  have htx := txn_body_alias_taken (CreateRoom.new_room user room_id req) domain
    (CreateRoom.creation_options req (CreateRoom.new_room user room_id req)) s a
    halias htaken
  rcases hb : CreateRoom.txn_body (CreateRoom.new_room user room_id req) domain
    (CreateRoom.creation_options req (CreateRoom.new_room user room_id req)) s
    with ⟨s₁, r⟩
  rw [hb] at htx
  cases r with
  | ok room => exact absurd htx (by simp)
  | error e =>
      cases htx
      simp only [CreateRoom.handle, hval, transaction, hb]

theorem handle_ok_shape (user : User) (req : CreateRoomRequest)
    (room_id domain : String) (s : DBState) (resp : CreateRoomResponse)
    (hsucc : (CreateRoom.handle user (some req) room_id domain s).2 =
      Except.ok resp) :
    resp = ({ room_id := room_id } : CreateRoomResponse) ∧
    List.head? (CreateRoom.handle user (some req) room_id domain s).1.rooms =
      some (⟨room_id, user.id,
        (CreateRoom.new_room user room_id req).public⟩ : Room) ∧
    List.head? (CreateRoom.handle user (some req) room_id domain s).1.events =
      some (⟨"$create:" ++ domain ++ ":" ++ room_id, room_id, user.id,
        "m.room.create", CreateRoom.federate req⟩ : Event) ∧
    List.head?
        (CreateRoom.handle user (some req) room_id domain s).1.room_memberships =
      some (⟨"$member:" ++ domain ++ ":" ++ room_id, room_id, user.id,
        user.id, "join"⟩ : RoomMembership) ∧
    (∀ a, req.room_alias_name = some a →
      List.head?
          (CreateRoom.handle user (some req) room_id domain s).1.room_aliases =
        some (⟨a, room_id, user.id⟩ : RoomAlias)) := by
  have hval : CreateRoomRequest.validate req = Except.ok req := by
    cases hv : CreateRoomRequest.validate req with
    | error e =>
        simp only [CreateRoom.handle, hv] at hsucc
        exact absurd hsucc (by simp)
    | ok req' =>
        rw [validate_ok_eq hv]
  cases halias : req.room_alias_name with
      | none =>
          have heq := handle_eq_no_alias user req room_id domain s hval halias
          rw [heq] at hsucc
          obtain rfl : resp = ({ room_id := room_id } : CreateRoomResponse) :=
            (Except.ok.inj hsucc).symm
          refine ⟨rfl, ?_, ?_, ?_, ?_⟩
          · rw [heq]
            rfl
          · rw [heq]
            rfl
          · rw [heq]
            rfl
          · intro a ha
            exact Option.noConfusion ha
      | some a =>
          cases hany : List.any s.room_aliases (fun ra => ra.name == a) with
          | true =>
              have heq :=
                handle_eq_alias_taken user req room_id domain s a hval halias hany
              rw [heq] at hsucc
              exact absurd hsucc (by simp)
          | false =>
              have heq :=
                handle_eq_alias_free user req room_id domain s a hval halias hany
              rw [heq] at hsucc
              obtain rfl : resp = ({ room_id := room_id } : CreateRoomResponse) :=
                (Except.ok.inj hsucc).symm
              refine ⟨rfl, ?_, ?_, ?_, ?_⟩
              · rw [heq]
                rfl
              · rw [heq]
                rfl
              · rw [heq]
                rfl
              · intro a' ha'
                obtain rfl : a = a' := Option.some.inj ha'
                rw [heq]
                rfl

/-! ## Claim theorems -/

/-- C4: for every token issued by `Issue` for user `u` with a unique value
`v`, `Verify` on `v` succeeds and returns `u` through any sequence of
credential-engine operations that neither revokes `v` nor re-issues its value
(`Issue` always picks a fresh nonce); and once `Revoke` is called on `v`,
every subsequent `Verify` on `v` fails with `Unauthenticated`, through any
further sequence of operations. -/
theorem issue_verify_until_revoke (s₀ : TokenStore) (ops₁ ops₂ : List TokenOp)
    (u v : String)
    (h₁ : ∀ op ∈ ops₁,
      (∀ u', op ≠ TokenOp.issue u' v) ∧ op ≠ TokenOp.revoke v)
    (h₂ : ∀ op ∈ ops₂, ∀ u', op ≠ TokenOp.issue u' v) :
    Verify (runOps (Issue s₀ u v) ops₁) v = Except.ok u ∧
    Verify (runOps (Revoke (runOps (Issue s₀ u v) ops₁) v) ops₂) v =
      Except.error ApiError.unauthenticated := by
  have hfind := findToken_issue_self s₀ u v
  have hfind₁ := findToken_runOps_untouched hfind h₁
  constructor
  · rw [Verify, hfind₁]
    rfl
  · have hrevoked :
        findToken (Revoke (runOps (Issue s₀ u v) ops₁) v) v =
          some { id := List.length s₀, user_id := u, value := v,
                 revoked := true } := by
      rw [findToken_revoke, hfind₁, Option.map_some']
      simp
    obtain ⟨t', ht', hrev'⟩ := findToken_runOps_revoked hrevoked rfl h₂
    rw [Verify, ht']
    simp [hrev']

/-- Witness for C4 at a concrete store and traces. -/
theorem issue_verify_until_revoke_witness :
    Verify (runOps (Issue [] "@alice:ruma.io" "tokT")
      [TokenOp.issue "@bob:ruma.io" "tokS"]) "tokT" =
        Except.ok "@alice:ruma.io" ∧
    Verify (runOps (Revoke (runOps (Issue [] "@alice:ruma.io" "tokT")
      [TokenOp.issue "@bob:ruma.io" "tokS"]) "tokT")
      [TokenOp.revoke "tokT"]) "tokT" =
        Except.error ApiError.unauthenticated :=
  issue_verify_until_revoke [] [TokenOp.issue "@bob:ruma.io" "tokS"]
    [TokenOp.revoke "tokT"] "@alice:ruma.io" "tokT"
    (by
      intro op hop
      rw [List.mem_singleton] at hop
      subst hop
      exact ⟨fun u' h => by injection h with h₁ h₂; exact absurd h₂ (by decide),
             by decide⟩)
    (by
      intro op hop u' h
      rw [List.mem_singleton] at hop
      subst hop
      exact TokenOp.noConfusion h)

/-- C5: a `POST /logout` with a valid bearer token revokes the token and
returns success (`Status::Ok`) with an empty body; a second `POST /logout`
presenting the same token value sees `Verify` fail with `Unauthenticated` and
returns the authorization-failure status `Forbidden` instead of succeeding
again. -/
theorem logout_then_logout_again (s : TokenStore) (v u : String)
    (hv : Verify s v = Except.ok u) :
    (Logout.handle s v).2 = { status := Status.ok, body := "" } ∧
    Verify (Logout.handle s v).1 v = Except.error ApiError.unauthenticated ∧
    (Logout.handle (Logout.handle s v).1 v).2.status = Status.forbidden := by
  have heq : Logout.handle s v =
      (Revoke s v, { status := Status.ok, body := "" }) := by
    rw [Logout.handle, hv]
  obtain ⟨t, hft⟩ : ∃ t, findToken s v = some t := by
    rw [Verify] at hv
    cases hft : findToken s v with
    | none => rw [hft] at hv; exact absurd hv (by simp)
    | some t => exact ⟨t, rfl⟩
  have hverify₂ : Verify (Revoke s v) v =
      Except.error ApiError.unauthenticated := by
    have hb : (t.value == v) = true := by
      rw [findToken_value hft]
      exact beq_self_eq_true v
    have hfound : findToken (Revoke s v) v = some { t with revoked := true } := by
      rw [findToken_revoke, hft, Option.map_some', if_pos hb]
    rw [Verify, hfound]
    simp
  refine ⟨by rw [heq], by rw [heq]; exact hverify₂, ?_⟩
  rw [heq]
  rw [Logout.handle, hverify₂]

/-- Witness for C5 at a concrete one-token store. -/
theorem logout_then_logout_again_witness :
    (Logout.handle [(⟨0, "@alice:ruma.io", "tokT", false⟩ : AccessToken)]
        "tokT").2 = { status := Status.ok, body := "" } ∧
    Verify (Logout.handle [(⟨0, "@alice:ruma.io", "tokT", false⟩ : AccessToken)]
        "tokT").1 "tokT" = Except.error ApiError.unauthenticated ∧
    (Logout.handle (Logout.handle
        [(⟨0, "@alice:ruma.io", "tokT", false⟩ : AccessToken)] "tokT").1
        "tokT").2.status = Status.forbidden :=
  logout_then_logout_again [(⟨0, "@alice:ruma.io", "tokT", false⟩ : AccessToken)]
    "tokT" "@alice:ruma.io" rfl

/-- C6: `Revoke` is idempotent — revoking the same token value twice yields
exactly the end state of revoking it once, and after one `Revoke` every row
holding that token value is revoked. -/
theorem revoke_idempotent (s : TokenStore) (v : String) :
    Revoke (Revoke s v) v = Revoke s v ∧
    ∀ t ∈ Revoke s v, t.value = v → t.revoked = true := by
  constructor
  · unfold Revoke
    rw [List.map_map]
    apply List.map_congr_left
    intro t _
    by_cases h : (t.value == v) = true <;>
      simp [Function.comp, h]
  · intro t ht hval
    rw [Revoke, List.mem_map] at ht
    obtain ⟨t', _, heq⟩ := ht
    by_cases h : (t'.value == v) = true
    · rw [if_pos h] at heq
      rw [← heq]
    · rw [if_neg h] at heq
      subst heq
      exact absurd (by rw [hval]; exact beq_self_eq_true v) h

/-- Witness for C6 at a concrete one-token store. -/
theorem revoke_idempotent_witness :
    Revoke (Revoke [(⟨0, "@alice:ruma.io", "tokT", false⟩ : AccessToken)]
        "tokT") "tokT" =
      Revoke [(⟨0, "@alice:ruma.io", "tokT", false⟩ : AccessToken)] "tokT" ∧
    (⟨0, "@alice:ruma.io", "tokT", true⟩ : AccessToken).revoked = true :=
  ⟨(revoke_idempotent [(⟨0, "@alice:ruma.io", "tokT", false⟩ : AccessToken)]
      "tokT").1,
   (revoke_idempotent [(⟨0, "@alice:ruma.io", "tokT", false⟩ : AccessToken)]
      "tokT").2 (⟨0, "@alice:ruma.io", "tokT", true⟩ : AccessToken)
      (by decide) (by decide)⟩

/-- C1: room creation is atomic — whenever `CreateRoom::handle` returns an
error (validation failure, alias conflict, or any failure inside the
transaction), the database state is exactly the initial state: the
`transaction` wrapper rolls back every write, so if no Room row, creation
event, or membership event for the requested room id existed before, none
exists afterwards. -/
theorem create_room_atomic (user : User) (body : Option CreateRoomRequest)
    (room_id domain : String) (s : DBState) (e : ApiError)
    (h : (CreateRoom.handle user body room_id domain s).2 = Except.error e) :
    (CreateRoom.handle user body room_id domain s).1 = s ∧
    (List.any s.rooms (fun r => r.id == room_id) = false →
      List.any (CreateRoom.handle user body room_id domain s).1.rooms
        (fun r => r.id == room_id) = false) ∧
    (List.any s.events (fun ev => ev.room_id == room_id) = false →
      List.any (CreateRoom.handle user body room_id domain s).1.events
        (fun ev => ev.room_id == room_id) = false) ∧
    (List.any s.room_memberships (fun m => m.room_id == room_id) = false →
      List.any (CreateRoom.handle user body room_id domain s).1.room_memberships
        (fun m => m.room_id == room_id) = false) := by
  have h1 : (CreateRoom.handle user body room_id domain s).1 = s := by
    cases body with
    | none => rfl
    | some req =>
        cases hval : CreateRoomRequest.validate req with
        | error e' => simp only [CreateRoom.handle, hval]
        | ok req' =>
            rcases htr : transaction
              (CreateRoom.txn_body (CreateRoom.new_room user room_id req')
                domain
                (CreateRoom.creation_options req'
                  (CreateRoom.new_room user room_id req'))) s with ⟨s', r⟩
            cases r with
            | ok room =>
                have hok : (CreateRoom.handle user (some req) room_id domain
                    s).2 = Except.ok ({ room_id := room.id } :
                      CreateRoomResponse) := by
                  simp only [CreateRoom.handle, hval, htr]
                rw [hok] at h
                exact absurd h (by simp)
            | error e' =>
                have h1 : (CreateRoom.handle user (some req) room_id domain
                    s).1 = s' := by
                  simp only [CreateRoom.handle, hval, htr]
                have h2 := transaction_rollback _ s e' (by rw [htr])
                rw [htr] at h2
                rw [h1]
                exact h2
  refine ⟨h1, ?_, ?_, ?_⟩ <;> intro hh <;> rw [h1] <;> exact hh

/-- Witness for C1: a request with invalid visibility fails and the (empty)
database state is untouched — no room row, creation event, or membership
event exists for the requested room id. -/
theorem create_room_atomic_witness :
    (CreateRoom.handle (⟨"@alice:ruma.io"⟩ : User)
      (some (⟨none, none, none, none, none, none, some "bogus"⟩ :
        CreateRoomRequest)) "!r1:ruma.io" "ruma.io"
      (⟨[], [], [], []⟩ : DBState)).1 = (⟨[], [], [], []⟩ : DBState) ∧
    List.any (CreateRoom.handle (⟨"@alice:ruma.io"⟩ : User)
      (some (⟨none, none, none, none, none, none, some "bogus"⟩ :
        CreateRoomRequest)) "!r1:ruma.io" "ruma.io"
      (⟨[], [], [], []⟩ : DBState)).1.rooms
      (fun r => r.id == "!r1:ruma.io") = false ∧
    List.any (CreateRoom.handle (⟨"@alice:ruma.io"⟩ : User)
      (some (⟨none, none, none, none, none, none, some "bogus"⟩ :
        CreateRoomRequest)) "!r1:ruma.io" "ruma.io"
      (⟨[], [], [], []⟩ : DBState)).1.events
      (fun ev => ev.room_id == "!r1:ruma.io") = false ∧
    List.any (CreateRoom.handle (⟨"@alice:ruma.io"⟩ : User)
      (some (⟨none, none, none, none, none, none, some "bogus"⟩ :
        CreateRoomRequest)) "!r1:ruma.io" "ruma.io"
      (⟨[], [], [], []⟩ : DBState)).1.room_memberships
      (fun m => m.room_id == "!r1:ruma.io") = false := by
  have h := create_room_atomic (⟨"@alice:ruma.io"⟩ : User)
    (some (⟨none, none, none, none, none, none, some "bogus"⟩ :
      CreateRoomRequest)) "!r1:ruma.io" "ruma.io"
    (⟨[], [], [], []⟩ : DBState) ApiError.bad_json rfl
  exact ⟨h.1, h.2.1 rfl, h.2.2.1 rfl, h.2.2.2 rfl⟩

/-- C2: a `createRoom` body whose `visibility` is neither `"public"` nor
`"private"` makes the handler fail with `ApiError::bad_json` (error code
`M_BAD_JSON`), and the returned database state is exactly the input state —
validation fails before any storage access or transaction, so no room is
created. -/
theorem invalid_visibility_bad_json (user : User) (req : CreateRoomRequest)
    (room_id domain : String) (s : DBState) (v : String)
    (hvis : req.visibility = some v) (hp : v ≠ "public")
    (hpr : v ≠ "private") :
    CreateRoom.handle user (some req) room_id domain s =
      (s, Except.error ApiError.bad_json) ∧
    ApiError.errcode ApiError.bad_json = "M_BAD_JSON" := by
  have hval : CreateRoomRequest.validate req =
      Except.error ApiError.bad_json := by
    rw [CreateRoomRequest.validate, hvis]
    exact if_pos ⟨hp, hpr⟩
  exact ⟨by simp only [CreateRoom.handle, hval], rfl⟩

/-- Witness for C2 at the spec's concrete scenario 3 body. -/
theorem invalid_visibility_bad_json_witness :
    CreateRoom.handle (⟨"@alice:ruma.io"⟩ : User)
      (some (⟨none, none, none, none, none, none, some "bogus"⟩ :
        CreateRoomRequest)) "!r1:ruma.io" "ruma.io"
      (⟨[], [], [], []⟩ : DBState) =
      ((⟨[], [], [], []⟩ : DBState), Except.error ApiError.bad_json) ∧
    ApiError.errcode ApiError.bad_json = "M_BAD_JSON" :=
  invalid_visibility_bad_json (⟨"@alice:ruma.io"⟩ : User)
    (⟨none, none, none, none, none, none, some "bogus"⟩ : CreateRoomRequest)
    "!r1:ruma.io" "ruma.io" (⟨[], [], [], []⟩ : DBState) "bogus"
    rfl (by decide) (by decide)

/-- C3: on a successful `createRoom`, the Room row written for the new room
(the head of the `rooms` table) is private (`public = false`) when the
request had no `visibility` field, and public (`public = true`) when
`visibility` was exactly `"public"`. -/
theorem created_room_visibility (user : User) (req : CreateRoomRequest)
    (room_id domain : String) (s : DBState) (resp : CreateRoomResponse)
    (hsucc : (CreateRoom.handle user (some req) room_id domain s).2 =
      Except.ok resp) :
    (req.visibility = none →
      List.head? (CreateRoom.handle user (some req) room_id domain s).1.rooms =
        some (⟨resp.room_id, user.id, false⟩ : Room)) ∧
    (req.visibility = some "public" →
      List.head? (CreateRoom.handle user (some req) room_id domain s).1.rooms =
        some (⟨resp.room_id, user.id, true⟩ : Room)) := by
  obtain ⟨hresp, hrooms, -, -, -⟩ :=
    handle_ok_shape user req room_id domain s resp hsucc
  subst hresp
  constructor
  · intro hv
    rw [hrooms]
    simp [CreateRoom.new_room, hv]
  · intro hv
    rw [hrooms]
    simp [CreateRoom.new_room, hv]

/-- Witness for C3: a request with `visibility = "public"` yields a public
room row. -/
theorem created_room_visibility_witness :
    List.head? (CreateRoom.handle (⟨"@alice:ruma.io"⟩ : User)
      (some (⟨none, none, none, none, none, none, some "public"⟩ :
        CreateRoomRequest)) "!r1:ruma.io" "ruma.io"
      (⟨[], [], [], []⟩ : DBState)).1.rooms =
      some (⟨"!r1:ruma.io", "@alice:ruma.io", true⟩ : Room) :=
  (created_room_visibility (⟨"@alice:ruma.io"⟩ : User)
    (⟨none, none, none, none, none, none, some "public"⟩ : CreateRoomRequest)
    "!r1:ruma.io" "ruma.io" (⟨[], [], [], []⟩ : DBState)
    ({ room_id := "!r1:ruma.io" } : CreateRoomResponse) rfl).2 rfl

/-- C7: on every successful `createRoom`, the founding membership event
written in the transaction (the head of the `room_memberships` table) is a
`"join"` event whose subject user id and sender user id both equal the
creator's user id, for the created room. -/
theorem founding_membership_join (user : User) (req : CreateRoomRequest)
    (room_id domain : String) (s : DBState) (resp : CreateRoomResponse)
    (hsucc : (CreateRoom.handle user (some req) room_id domain s).2 =
      Except.ok resp) :
    Option.map (fun m => (m.room_id, m.user_id, m.sender, m.membership))
      (List.head?
        (CreateRoom.handle user (some req) room_id domain
          s).1.room_memberships) =
      some (resp.room_id, user.id, user.id, "join") := by
  obtain ⟨hresp, -, -, hmem, -⟩ :=
    handle_ok_shape user req room_id domain s resp hsucc
  subst hresp
  rw [hmem]
  rfl

/-- Witness for C7 at the empty request body. -/
theorem founding_membership_join_witness :
    Option.map (fun m => (m.room_id, m.user_id, m.sender, m.membership))
      (List.head?
        (CreateRoom.handle (⟨"@alice:ruma.io"⟩ : User)
          (some (⟨none, none, none, none, none, none, none⟩ :
            CreateRoomRequest)) "!r1:ruma.io" "ruma.io"
          (⟨[], [], [], []⟩ : DBState)).1.room_memberships) =
      some ("!r1:ruma.io", "@alice:ruma.io", "@alice:ruma.io", "join") :=
  founding_membership_join (⟨"@alice:ruma.io"⟩ : User)
    (⟨none, none, none, none, none, none, none⟩ : CreateRoomRequest)
    "!r1:ruma.io" "ruma.io" (⟨[], [], [], []⟩ : DBState)
    ({ room_id := "!r1:ruma.io" } : CreateRoomResponse) rfl

/-- C8: on every successful `createRoom`, the room's creation event (the head
of the `events` table, of type `m.room.create`) embeds a federation-allowed
flag that is `true` when `creation_content` is absent, `true` when
`creation_content.m.federate` is absent, and equal to the given boolean
otherwise. -/
theorem creation_event_federate (user : User) (req : CreateRoomRequest)
    (room_id domain : String) (s : DBState) (resp : CreateRoomResponse)
    (hsucc : (CreateRoom.handle user (some req) room_id domain s).2 =
      Except.ok resp) :
    Option.map (fun ev => (ev.room_id, ev.event_type, ev.federate))
      (List.head?
        (CreateRoom.handle user (some req) room_id domain s).1.events) =
      some (resp.room_id, "m.room.create",
        match req.creation_content with
        | none => true
        | some cc =>
            match cc.federate with
            | none => true
            | some b => b) := by
  obtain ⟨hresp, -, hev, -, -⟩ :=
    handle_ok_shape user req room_id domain s resp hsucc
  subst hresp
  rw [hev]
  rcases hcc : req.creation_content with - | cc
  · simp [CreateRoom.federate, hcc]
  · rcases hf : cc.federate with - | b <;>
      simp [CreateRoom.federate, hcc, hf]

/-- Witness for C8: `creation_content.m.federate = false` turns federation
off in the creation event. -/
theorem creation_event_federate_witness :
    Option.map (fun ev => (ev.room_id, ev.event_type, ev.federate))
      (List.head?
        (CreateRoom.handle (⟨"@alice:ruma.io"⟩ : User)
          (some (⟨some ⟨some false⟩, none, none, none, none, none, none⟩ :
            CreateRoomRequest)) "!r1:ruma.io" "ruma.io"
          (⟨[], [], [], []⟩ : DBState)).1.events) =
      some ("!r1:ruma.io", "m.room.create", false) :=
  creation_event_federate (⟨"@alice:ruma.io"⟩ : User)
    (⟨some ⟨some false⟩, none, none, none, none, none, none⟩ :
      CreateRoomRequest) "!r1:ruma.io" "ruma.io" (⟨[], [], [], []⟩ : DBState)
    ({ room_id := "!r1:ruma.io" } : CreateRoomResponse) rfl

/-- C9: when a `createRoom` request asks for an alias that an earlier
successful `createRoom` already reserved, the second request fails with
`AliasTaken` and — because the alias check runs inside the same `transaction`
as the room creation — the second request leaves the database state exactly
as the first request left it: the first room's row is still present and the
alias still resolves to the first room. -/
theorem alias_conflict (user₁ user₂ : User) (req₁ req₂ : CreateRoomRequest)
    (id₁ id₂ domain : String) (s : DBState) (a : String)
    (resp₁ : CreateRoomResponse)
    (ha₁ : req₁.room_alias_name = some a)
    (ha₂ : req₂.room_alias_name = some a)
    (hval₂ : CreateRoomRequest.validate req₂ = Except.ok req₂)
    (hsucc : (CreateRoom.handle user₁ (some req₁) id₁ domain s).2 =
      Except.ok resp₁) :
    (CreateRoom.handle user₂ (some req₂) id₂ domain
        (CreateRoom.handle user₁ (some req₁) id₁ domain s).1).2 =
      Except.error ApiError.alias_taken ∧
    (CreateRoom.handle user₂ (some req₂) id₂ domain
        (CreateRoom.handle user₁ (some req₁) id₁ domain s).1).1 =
      (CreateRoom.handle user₁ (some req₁) id₁ domain s).1 ∧
    List.any (CreateRoom.handle user₁ (some req₁) id₁ domain s).1.rooms
      (fun r => r.id == resp₁.room_id) = true ∧
    List.any (CreateRoom.handle user₁ (some req₁) id₁ domain s).1.room_aliases
      (fun ra => ra.name == a && ra.room_id == resp₁.room_id) = true := by
  obtain ⟨hresp, hrooms, -, -, halsh⟩ :=
    handle_ok_shape user₁ req₁ id₁ domain s resp₁ hsucc
  subst hresp
  have ha := halsh a ha₁
  rcases hl : (CreateRoom.handle user₁ (some req₁) id₁ domain
      s).1.room_aliases with - | ⟨x, t⟩
  · rw [hl] at ha
    exact Option.noConfusion ha
  rw [hl] at ha
  have hx : x = (⟨a, id₁, user₁.id⟩ : RoomAlias) := Option.some.inj ha
  have hany : List.any (CreateRoom.handle user₁ (some req₁) id₁ domain
      s).1.room_aliases (fun ra => ra.name == a) = true := by
    rw [hl, List.any_cons, hx]
    simp
  have heq₂ := handle_eq_alias_taken user₂ req₂ id₂ domain
    (CreateRoom.handle user₁ (some req₁) id₁ domain s).1 a hval₂ ha₂ hany
  refine ⟨by rw [heq₂], by rw [heq₂], ?_, ?_⟩
  · rcases hr : (CreateRoom.handle user₁ (some req₁) id₁ domain
        s).1.rooms with - | ⟨y, t'⟩
    · rw [hr] at hrooms
      exact Option.noConfusion hrooms
    rw [hr] at hrooms
    have hy : y = (⟨id₁, user₁.id,
        (CreateRoom.new_room user₁ id₁ req₁).public⟩ : Room) :=
      Option.some.inj hrooms
    rw [List.any_cons, hy]
    simp
  · rw [List.any_cons, hx]
    simp

/-- Witness for C9 at the spec's concrete scenario 4: two requests for alias
`"foo"` against an initially empty database. -/
theorem alias_conflict_witness :
    (CreateRoom.handle (⟨"@bob:ruma.io"⟩ : User)
      (some (⟨none, none, none, none, some "foo", none, none⟩ :
        CreateRoomRequest)) "!r2:ruma.io" "ruma.io"
      (CreateRoom.handle (⟨"@alice:ruma.io"⟩ : User)
        (some (⟨none, none, none, none, some "foo", none, none⟩ :
          CreateRoomRequest)) "!r1:ruma.io" "ruma.io"
        (⟨[], [], [], []⟩ : DBState)).1).2 =
      Except.error ApiError.alias_taken ∧
    (CreateRoom.handle (⟨"@bob:ruma.io"⟩ : User)
      (some (⟨none, none, none, none, some "foo", none, none⟩ :
        CreateRoomRequest)) "!r2:ruma.io" "ruma.io"
      (CreateRoom.handle (⟨"@alice:ruma.io"⟩ : User)
        (some (⟨none, none, none, none, some "foo", none, none⟩ :
          CreateRoomRequest)) "!r1:ruma.io" "ruma.io"
        (⟨[], [], [], []⟩ : DBState)).1).1 =
      (CreateRoom.handle (⟨"@alice:ruma.io"⟩ : User)
        (some (⟨none, none, none, none, some "foo", none, none⟩ :
          CreateRoomRequest)) "!r1:ruma.io" "ruma.io"
        (⟨[], [], [], []⟩ : DBState)).1 ∧
    List.any (CreateRoom.handle (⟨"@alice:ruma.io"⟩ : User)
      (some (⟨none, none, none, none, some "foo", none, none⟩ :
        CreateRoomRequest)) "!r1:ruma.io" "ruma.io"
      (⟨[], [], [], []⟩ : DBState)).1.rooms
      (fun r => r.id == "!r1:ruma.io") = true ∧
    List.any (CreateRoom.handle (⟨"@alice:ruma.io"⟩ : User)
      (some (⟨none, none, none, none, some "foo", none, none⟩ :
        CreateRoomRequest)) "!r1:ruma.io" "ruma.io"
      (⟨[], [], [], []⟩ : DBState)).1.room_aliases
      (fun ra => ra.name == "foo" && ra.room_id == "!r1:ruma.io") = true :=
  alias_conflict (⟨"@alice:ruma.io"⟩ : User) (⟨"@bob:ruma.io"⟩ : User)
    (⟨none, none, none, none, some "foo", none, none⟩ : CreateRoomRequest)
    (⟨none, none, none, none, some "foo", none, none⟩ : CreateRoomRequest)
    "!r1:ruma.io" "!r2:ruma.io" "ruma.io" (⟨[], [], [], []⟩ : DBState) "foo"
    ({ room_id := "!r1:ruma.io" } : CreateRoomResponse) rfl rfl rfl rfl

/-- C10: `Config::from_file` rejects a `macaroon_secret_key` that the
external `base64::decode` cannot decode, and rejects one that decodes to any
length other than 32 bytes; when the key decodes to exactly 32 bytes it
succeeds, the resulting `Config.macaroon_secret_key` holds the decoded
bytes, and omitted `bind_address` and `bind_port` default to `"127.0.0.1"`
and `"3000"`. Stated for every decode function and every parsed
`RawConfig`. -/
theorem from_file_secret_key (decode : String → Except String (List Nat))
    (raw : RawConfig) :
    (∀ e, decode raw.macaroon_secret_key = Except.error e →
      Config.from_file decode raw =
        Except.error ⟨"macaroon_secret_key must be valid Base64."⟩) ∧
    (∀ bytes, decode raw.macaroon_secret_key = Except.ok bytes →
      bytes.length ≠ 32 →
      Config.from_file decode raw =
        Except.error ⟨"macaroon_secret_key must be 32 bytes."⟩) ∧
    (∀ bytes, decode raw.macaroon_secret_key = Except.ok bytes →
      bytes.length = 32 →
      Config.from_file decode raw =
        Except.ok
          ⟨match raw.bind_address with
           | some a => a
           | none => "127.0.0.1",
           match raw.bind_port with
           | some p => p
           | none => "3000",
           raw.domain, bytes, raw.postgres_url⟩) := by
  refine ⟨?_, ?_, ?_⟩
  · intro e h
    rw [Config.from_file, h]
  · intro bytes h hlen
    rw [Config.from_file, h]
    exact if_neg hlen
  · intro bytes h hlen
    rw [Config.from_file, h]
    exact if_pos hlen

/-- Witness for C10: a decoder returning 32 bytes yields a `Config` with the
decoded key and defaulted address and port; a failing decoder yields the
Base64 error. -/
theorem from_file_secret_key_witness :
    Config.from_file (fun _ => Except.ok (List.replicate 32 7))
      (⟨none, none, "ruma.io", "key", "postgres:url"⟩ : RawConfig) =
      Except.ok
        (⟨"127.0.0.1", "3000", "ruma.io", List.replicate 32 7,
          "postgres:url"⟩ : Config) ∧
    Config.from_file (fun _ => Except.error "bad base64")
      (⟨none, none, "ruma.io", "key", "postgres:url"⟩ : RawConfig) =
      Except.error ⟨"macaroon_secret_key must be valid Base64."⟩ :=
  ⟨(from_file_secret_key (fun _ => Except.ok (List.replicate 32 7))
      (⟨none, none, "ruma.io", "key", "postgres:url"⟩ : RawConfig)).2.2
      (List.replicate 32 7) rfl rfl,
   (from_file_secret_key (fun _ => Except.error "bad base64")
      (⟨none, none, "ruma.io", "key", "postgres:url"⟩ : RawConfig)).1
      "bad base64" rfl⟩
